import Mathlib

/-! # lab-sftp: the client-side user-authentication layer (`src/auth.c`)

A shallow embedding of the three functions of `src/auth.c`:

* `ssh_request_auth`      — the `ssh-userauth` service request,
* `ssh_get_password`      — password capture from the terminal,
* `ssh_userauth_password` — the password-authentication exchange.

Bytes are natural numbers below 256, C `int`s are integers.  The collaborators
whose code is not part of `src/` (status codes, the typed buffer, the packet
layer) are either parameters or small models written from the specification;
each such definition says so in its doc comment.
-/

namespace LabSftp

/-! ## Status codes and message numbers -/

/-- The status codes of `libsftp/libssh.h`, a header that is not among the sources.
They are a parameter of every function below. -/
structure Codes where
  SSH_OK : Int
  SSH_ERROR : Int
  SSH_AGAIN : Int
deriving DecidableEq, Repr

/-- The three status codes are pairwise different. -/
def Codes.distinct (k : Codes) : Prop :=
  k.SSH_OK ≠ k.SSH_ERROR ∧ k.SSH_OK ≠ k.SSH_AGAIN ∧ k.SSH_AGAIN ≠ k.SSH_ERROR

instance (k : Codes) : Decidable k.distinct := by
  unfold Codes.distinct; infer_instance

/-- The values the libssh family of headers gives the three codes; used to
evaluate the functions on concrete inputs. -/
def libsshCodes : Codes := ⟨0, -1, -2⟩

/-- Modelled from the spec: the message numbers of `libsftp/libssh.h` (absent),
the service-request tag. -/
def SSH_MSG_SERVICE_REQUEST : Nat := 5
/-- Modelled from the spec: the service-accept tag (6). -/
def SSH_MSG_SERVICE_ACCEPT : Nat := 6
/-- Modelled from the spec: the userauth-request tag. -/
def SSH_MSG_USERAUTH_REQUEST : Nat := 50
/-- Modelled from the spec: the userauth-failure tag (51). -/
def SSH_MSG_USERAUTH_FAILURE : Nat := 51
/-- Modelled from the spec: the userauth-success tag (52). -/
def SSH_MSG_USERAUTH_SUCCESS : Nat := 52
/-- Modelled from the spec: the userauth-banner tag (53). -/
def SSH_MSG_USERAUTH_BANNER : Nat := 53
/-- Modelled from the spec: the userauth-password-change-request tag (60). -/
def SSH_MSG_USERAUTH_PASSWD_CHANGEREQ : Nat := 60

/-! ## The typed buffer (`libsftp/buffer.h`, not among the sources) -/

/-- Modelled from the spec: the typed buffer of `libsftp/buffer.h` (absent), a byte
sequence with a read cursor `pos`. -/
structure ssh_buffer where
  data : List Nat
  pos : Nat
deriving DecidableEq, Repr

/-- Modelled from the spec: `ssh_buffer_reinit` (absent) resets cursor and length
to zero. -/
def ssh_buffer_reinit (_b : ssh_buffer) : ssh_buffer := ⟨[], 0⟩

/-- The bytes of a buffer that have not been consumed yet. -/
def ssh_buffer.rest (b : ssh_buffer) : List Nat := b.data.drop b.pos

/-- Four-byte big-endian encoding of a length. -/
def u32be (n : Nat) : List Nat :=
  [n / 2 ^ 24 % 256, n / 2 ^ 16 % 256, n / 2 ^ 8 % 256, n % 256]

/-- Modelled from the spec: `ssh_buffer_get_u8` (absent) reads the byte at the
cursor and advances the cursor by one; it fails, leaving the buffer alone, when
no byte remains. -/
def ssh_buffer_get_u8 (b : ssh_buffer) : Option (Nat × ssh_buffer) :=
  match b.rest with
  | [] => none
  | x :: _ => some (x, { b with pos := b.pos + 1 })

/-- Modelled from the spec: `ssh_buffer_get_ssh_string` (absent) reads a
length-prefixed string at the cursor: a 4-byte big-endian length `L`, then exactly
`L` raw bytes.  The result is `NULL` (`none`), with the cursor where it was, when
fewer bytes remain than that. -/
def ssh_buffer_get_ssh_string (b : ssh_buffer) : Option (List Nat) × ssh_buffer :=
  match b.rest with
  | b0 :: b1 :: b2 :: b3 :: tl =>
    let len := b0 * 2 ^ 24 + b1 * 2 ^ 16 + b2 * 2 ^ 8 + b3
    if len ≤ tl.length then (some (tl.take len), { b with pos := b.pos + 4 + len })
    else (none, b)
  | _ => (none, b)

/-- A value handed to `ssh_buffer_pack` or produced by `ssh_buffer_unpack`: the
format tag `b` takes a single byte, the tag `s` a string. -/
inductive Field where
  | byte (v : Nat)
  | str (s : List Nat)
deriving DecidableEq, Repr

/-- Modelled from the spec: the effect of a successful `ssh_buffer_pack` (absent):
for each tag of the format the canonical encoding of the matching value is
appended; a value list that does not match the format is refused (`none`) and
nothing is appended. -/
def ssh_buffer_pack (b : ssh_buffer) : List Char → List Field → Option ssh_buffer
  | [], [] => some b
  | 'b' :: fmt, Field.byte v :: vs =>
    ssh_buffer_pack { b with data := b.data ++ [v % 256] } fmt vs
  | 's' :: fmt, Field.str s :: vs =>
    ssh_buffer_pack { b with data := b.data ++ u32be s.length ++ s } fmt vs
  | _, _ => none

/-- Modelled from the spec: `ssh_buffer_unpack` (absent): for each tag of the
format the canonical encoding is read at the cursor and the cursor advanced; the
call fails (`none`) when fewer bytes remain than a tag requires. -/
def ssh_buffer_unpack (b : ssh_buffer) : List Char → Option (List Field × ssh_buffer)
  | [] => some ([], b)
  | 'b' :: fmt =>
    match ssh_buffer_get_u8 b with
    | none => none
    | some (v, b1) =>
      match ssh_buffer_unpack b1 fmt with
      | none => none
      | some (vs, b2) => some (Field.byte v :: vs, b2)
  | 's' :: fmt =>
    match ssh_buffer_get_ssh_string b with
    | (none, _) => none
    | (some s, b1) =>
      match ssh_buffer_unpack b1 fmt with
      | none => none
      | some (vs, b2) => some (Field.str s :: vs, b2)
  | _ :: _ => none

/-! ## C strings -/

/-- The bytes of a string literal. -/
def lit (s : String) : List Nat := s.toList.map Char.toNat

/-- The C library's `strcmp` on two zero-terminated byte arrays: the comparison
stops at the first position where the arrays differ or where both hold the
terminator. -/
def strcmp : List Nat → List Nat → Int
  | a :: as, b :: bs =>
    if a ≠ b then (a : Int) - (b : Int) else if a = 0 then 0 else strcmp as bs
  | _, _ => 0

/-- The zero-terminated array a C `char *` points to, for the given content. -/
def cstr (s : List Nat) : List Nat := s ++ [0]

/-! ## Sessions and the packet layer (`libsftp/session.h`, `libsftp/packet.h`) -/

/-- The session context: the fields of `ssh_session` that `auth.c` uses. -/
structure ssh_session where
  out_buffer : ssh_buffer
  in_buffer : ssh_buffer
  username : List Nat
deriving DecidableEq, Repr

/-- One answer of `ssh_packet_receive`: its status and the packet it decoded. -/
structure Recv where
  rc : Int
  packet : List Nat
deriving DecidableEq, Repr

/-- What the collaborators answer during one call: the status of
`ssh_buffer_pack`, the status of `ssh_packet_send` and whether it clears the
outbound buffer, and the answers of the successive `ssh_packet_receive` calls. -/
structure Answers where
  packRc : Int
  sendRc : Int
  sendClears : Bool
  recvs : List Recv
deriving DecidableEq, Repr

/-- The call `ssh_buffer_pack(session->out_buffer, fmt, ...)`: its status is the
collaborator's; when that is `SSH_OK` the fields have been appended. -/
def do_pack (k : Codes) (io : Answers) (s : ssh_session) (fmt : String) (vs : List Field) :
    Int × ssh_session :=
  if io.packRc = k.SSH_OK then
    match ssh_buffer_pack s.out_buffer fmt.toList vs with
    | some b => (io.packRc, { s with out_buffer := b })
    | none => (io.packRc, s)
  else (io.packRc, s)

/-- Modelled from the spec: `ssh_packet_send` (absent) transmits the outbound
buffer as one packet, clearing or leaving it per the transport's contract. -/
def ssh_packet_send (io : Answers) (s : ssh_session) : Int × ssh_session :=
  (io.sendRc,
    if io.sendClears then { s with out_buffer := ssh_buffer_reinit s.out_buffer } else s)

/-- Modelled from the spec: `ssh_packet_receive` (absent) blocks until one inbound
packet is decoded into the inbound buffer. -/
def ssh_packet_receive (r : Recv) (s : ssh_session) : Int × ssh_session :=
  (r.rc, { s with in_buffer := ⟨r.packet, 0⟩ })

/-! ## `ssh_request_auth` -/

/-- The result of `ssh_request_auth`: the returned status, the session afterwards
and the answers of the packet layer not consumed. -/
structure ReqResult where
  rc : Int
  session : ssh_session
  unread : List Recv
deriving DecidableEq, Repr

/-- The function `ssh_request_auth` of `auth.c`.  `none` stands for a call that
blocks in `ssh_packet_receive` for ever (no answer left). -/
def ssh_request_auth (k : Codes) (io : Answers) (session : ssh_session) : Option ReqResult :=
  -- rc = ssh_buffer_pack(session->out_buffer, "bs", SSH_MSG_SERVICE_REQUEST, "ssh-userauth");
  let (rc, s1) := do_pack k io session "bs"
    [Field.byte SSH_MSG_SERVICE_REQUEST, Field.str (lit "ssh-userauth")]
  -- rc |= ssh_packet_send(session);
  let (rcSend, s2) := ssh_packet_send io s1
  let rc := Int.lor rc rcSend
  -- if (rc != SSH_OK) return rc;
  if rc ≠ k.SSH_OK then some ⟨rc, s2, io.recvs⟩
  else
    match io.recvs with
    | [] => none
    | r :: rest =>
      -- rc = ssh_packet_receive(session); if (rc != SSH_OK) return rc;
      let (rc, s3) := ssh_packet_receive r s2
      if rc ≠ k.SSH_OK then some ⟨rc, s3, rest⟩
      else
        -- rc = ssh_buffer_unpack(session->in_buffer, "bs", &type, &service);
        match ssh_buffer_unpack s3.in_buffer "bs".toList with
        | some ([Field.byte type, Field.str service], inb) =>
          let s4 := { s3 with in_buffer := inb }
          if type ≠ SSH_MSG_SERVICE_ACCEPT ∨ strcmp (cstr service) (cstr (lit "ssh-userauth")) ≠ 0
          then some ⟨k.SSH_ERROR, s4, rest⟩
          else some ⟨k.SSH_OK, s4, rest⟩
        | _ => some ⟨k.SSH_ERROR, s3, rest⟩

/-! ## `ssh_get_password` -/

/-- The value `getchar` returns at end of input (`stdio.h`). -/
def EOF : Int := -1

/-- The C library's `getchar` on an input stream given by its remaining bytes: it
consumes and returns the next byte, or returns `EOF` once the input has ended. -/
def getchar : List Nat → Int × List Nat
  | [] => (EOF, [])
  | b :: rest => ((b : Int), rest)

/-- The local `int max_len = 100` of `ssh_get_password`. -/
def max_len : Nat := 100

/-- The `while` loop of `ssh_get_password`.  The state is the input not read yet,
the index `i` and the stores made into `password[]` so far, each an (index, byte)
pair, oldest first.  The first argument bounds the number of iterations; `none`
means the bound was too small. -/
def ssh_get_password_loop :
    Nat → List Nat → Nat → List (Nat × Nat) → Option (List Nat × Nat × List (Nat × Nat))
  | 0, _, _, _ => none
  | fuel + 1, stdin, i, writes =>
    -- (c = getchar()), with `uint8_t c`
    let (r, stdin1) := getchar stdin
    let c : Nat := (r % 256).toNat
    -- c != '\n' && c != EOF && i < max_len
    if (c : Int) ≠ 10 ∧ (c : Int) ≠ EOF ∧ i < max_len then
      -- password[i++] = c;
      ssh_get_password_loop fuel stdin1 (i + 1) (writes ++ [(i, c)])
    else some (stdin1, i, writes)

/-- What a call of `ssh_get_password` leaves behind: the stores made into
`password[]` (index and byte, oldest first), the input not consumed, the bytes
printed, and the successive settings of the terminal's `ECHO` flag. -/
structure PwResult where
  writes : List (Nat × Nat)
  stdin : List Nat
  stdout : List Nat
  echo : List Bool
deriving DecidableEq, Repr

/-- The function `ssh_get_password` of `auth.c`, on the input `stdin` and a
terminal whose `ECHO` flag is `oldEcho`.  Each iteration of the loop either stops
or increases `i`, and `i` stops at `max_len`, so `max_len + 1` iterations are
always enough. -/
def ssh_get_password (stdin : List Nat) (oldEcho : Bool) : Option PwResult :=
  -- fprintf(stdout, "password: ");
  let out := lit "password: "
  -- newt = oldt; newt.c_lflag &= ~(ECHO); tcsetattr(STDIN_FILENO, TCSANOW, &newt);
  let echo1 := [false]
  match ssh_get_password_loop (max_len + 1) stdin 0 [] with
  | none => none
  | some (stdin1, i, writes) =>
    -- password[i] = '\0'; tcsetattr(STDIN_FILENO, TCSANOW, &oldt);
    some ⟨writes ++ [(i, 0)], stdin1, out, echo1 ++ [oldEcho]⟩

/-! ## `ssh_userauth_password` -/

/-- The result of `ssh_userauth_password`: the returned status, the static attempt
counter `cnt` afterwards, the session afterwards, the bytes written to the
standard output, and the answers of the packet layer not consumed. -/
structure AuthResult where
  rc : Int
  cnt : Int
  session : ssh_session
  display : List Nat
  unread : List Recv
deriving DecidableEq, Repr

/-- The label `error:` of `ssh_userauth_password`: `cnt = 0`, the outbound buffer
reinitialised, `SSH_ERROR` returned. -/
def userauth_error (k : Codes) (s : ssh_session) (display : List Nat) (unread : List Recv) :
    AuthResult :=
  ⟨k.SSH_ERROR, 0, { s with out_buffer := ssh_buffer_reinit s.out_buffer }, display, unread⟩

/-- The `for` loop of the banner case over the bytes of `msg`: a byte other than
the escape character (27) goes to `putchar`, the escape character is printed as
the two characters of `^[`. -/
def print_banner : List Nat → List Nat
  | [] => []
  | ch :: rest => (if ch ≠ 27 then [ch] else lit "^[") ++ print_banner rest

/-- The receive loop `while (rc != SSH_ERROR)` of `ssh_userauth_password`.  `cnt` is
the static counter at entry, `type` the current content of the local `uint8_t type`,
which `ssh_buffer_get_u8` leaves alone when the packet is empty.  `none` stands for
a call that blocks in `ssh_packet_receive` for ever (no answer left).  The calls of
the logger and of `ssh_set_error` touch none of the state described here and are
left out; the index of the banner loop is a C `int`, and a packet is far shorter
than `INT_MAX`. -/
def userauth_loop (k : Codes) (cnt : Int) :
    List Recv → Int → Nat → ssh_session → List Nat → Option AuthResult
  | [], rc, _, s, disp =>
    if rc ≠ k.SSH_ERROR then none else some (userauth_error k s disp [])
  | r :: rest, rc, type, s, disp =>
    if rc ≠ k.SSH_ERROR then
      -- rc = ssh_packet_receive(session); if (rc != SSH_OK) goto error;
      let (rc, s1) := ssh_packet_receive r s
      if rc ≠ k.SSH_OK then some (userauth_error k s1 disp rest)
      else
        -- ssh_buffer_get_u8(session->in_buffer, &type);
        let (type, inb) :=
          match ssh_buffer_get_u8 s1.in_buffer with
          | some (t, b) => (t, b)
          | none => (type, s1.in_buffer)
        let s2 := { s1 with in_buffer := inb }
        if type = SSH_MSG_USERAUTH_BANNER then
          let (msg, b1) := ssh_buffer_get_ssh_string s2.in_buffer
          let (lang_tag, b2) := ssh_buffer_get_ssh_string b1
          let s3 := { s2 with in_buffer := b2 }
          -- if (msg == NULL || lang_tag == NULL) goto error;
          match msg, lang_tag with
          | some m, some _ => userauth_loop k cnt rest rc type s3 (disp ++ print_banner m)
          | _, _ => some (userauth_error k s3 disp rest)
        else if type = SSH_MSG_USERAUTH_SUCCESS then
          -- cnt = 0; return SSH_OK;
          some ⟨k.SSH_OK, 0, s2, disp, rest⟩
        else if type = SSH_MSG_USERAUTH_PASSWD_CHANGEREQ ∨ type = SSH_MSG_USERAUTH_FAILURE then
          -- ++cnt; if (cnt < 3) { reinit both buffers; return SSH_AGAIN; } goto error;
          let cnt1 := cnt + 1
          if cnt1 < 3 then
            some ⟨k.SSH_AGAIN, cnt1,
              { s2 with out_buffer := ssh_buffer_reinit s2.out_buffer,
                        in_buffer := ssh_buffer_reinit s2.in_buffer }, disp, rest⟩
          else some (userauth_error k s2 disp rest)
        else some (userauth_error k s2 disp rest)
    else some (userauth_error k s disp (r :: rest))

/-- The function `ssh_userauth_password` of `auth.c`.  `cnt` is the value of the
static counter at entry and `type0` the indeterminate initial content of the
local `type`. -/
def ssh_userauth_password (k : Codes) (io : Answers) (cnt : Int) (session : ssh_session)
    (password : List Nat) (type0 : Nat) : Option AuthResult :=
  let (rc, s1) := do_pack k io session "bsssbs"
    [Field.byte SSH_MSG_USERAUTH_REQUEST, Field.str session.username,
     Field.str (lit "ssh-connection"), Field.str (lit "password"), Field.byte 0,
     Field.str password]
  -- if (rc != SSH_OK) goto error;
  if rc ≠ k.SSH_OK then some (userauth_error k s1 [] io.recvs)
  else
    -- rc = ssh_packet_send(session); if (rc != SSH_OK) goto error;
    let (rc, s2) := ssh_packet_send io s1
    if rc ≠ k.SSH_OK then some (userauth_error k s2 [] io.recvs)
    else userauth_loop k cnt io.recvs rc type0 s2 []

/-! ## Well-formed packets -/

/-- The wire form of a length-prefixed string. -/
def ssh_string (s : List Nat) : List Nat := u32be s.length ++ s

/-- A userauth-banner packet carrying the message `m` and the language tag `l`. -/
def banner_packet (m l : List Nat) : List Nat :=
  SSH_MSG_USERAUTH_BANNER :: (ssh_string m ++ ssh_string l)

/-- A banner as the packet layer delivers it: status `SSH_OK` and the packet. -/
def banner_recv (k : Codes) (b : List Nat × List Nat) : Recv :=
  ⟨k.SSH_OK, banner_packet b.1 b.2⟩

/-- Both strings of a banner fit the 4-byte length prefix. -/
def banner_wf (b : List Nat × List Nat) : Prop :=
  b.1.length < 2 ^ 32 ∧ b.2.length < 2 ^ 32

instance (b : List Nat × List Nat) : Decidable (banner_wf b) := by
  unfold banner_wf; infer_instance

/-- The claim's description of the displayed banner: every byte 27 replaced by
the two bytes of `^[`, every other byte unchanged. -/
def escape_shown (m : List Nat) : List Nat :=
  (m.map (fun b => if b = 27 then [94, 91] else [b])).flatten

/-! ## Concrete inputs used to exercise the theorems -/

/-- A fresh session of the user `alice`. -/
def sessionA : ssh_session := ⟨⟨[], 0⟩, ⟨[], 0⟩, lit "alice"⟩

/-- A fresh session of the user `bob`. -/
def sessionB : ssh_session := ⟨⟨[], 0⟩, ⟨[], 0⟩, lit "bob"⟩

/-- A call in which pack and send succeed and the packet layer delivers the given
packets, each with status `SSH_OK`. -/
def okCall (packets : List (List Nat)) : Answers :=
  ⟨0, 0, false, packets.map (fun p => ⟨0, p⟩)⟩

/-! ## Lemmas on the buffer model -/

theorem get_u8_cons (t : Nat) (p : List Nat) :
    ssh_buffer_get_u8 ⟨t :: p, 0⟩ = some (t, ⟨t :: p, 1⟩) := by
  simp [ssh_buffer_get_u8, ssh_buffer.rest]

theorem u32be_decode (n : Nat) (h : n < 2 ^ 32) :
    n / 16777216 % 256 * 16777216 + n / 65536 % 256 * 65536 + n / 256 % 256 * 256 + n % 256
      = n := by
  norm_num at h
  omega

theorem get_ssh_string_at (pre s tl : List Nat) (pos : Nat) (hpos : pos = pre.length)
    (h : s.length < 2 ^ 32) :
    ssh_buffer_get_ssh_string ⟨pre ++ (ssh_string s ++ tl), pos⟩
      = (some s, ⟨pre ++ (ssh_string s ++ tl), pos + 4 + s.length⟩) := by
  subst hpos
  have hd := u32be_decode s.length h
  simp [ssh_buffer_get_ssh_string, ssh_buffer.rest, ssh_string, u32be, hd]

/-! ## Lemmas on `ssh_userauth_password` -/

/-- The status of a pack call is the collaborator's. -/
theorem do_pack_fst (k : Codes) (io : Answers) (s : ssh_session) (fmt : String)
    (vs : List Field) : (do_pack k io s fmt vs).1 = io.packRc := by
  unfold do_pack
  split
  · split <;> rfl
  · rfl

/-- With `ssh_buffer_pack` and `ssh_packet_send` answering `SSH_OK` the call is its
receive loop, entered with `rc = SSH_OK` on a session whose user name is unchanged. -/
theorem userauth_password_enters_loop (k : Codes) (clears : Bool) (recvs : List Recv)
    (cnt : Int) (s : ssh_session) (pw : List Nat) (ty : Nat) :
    ∃ s2 : ssh_session,
      ssh_userauth_password k ⟨k.SSH_OK, k.SSH_OK, clears, recvs⟩ cnt s pw ty
        = userauth_loop k cnt recvs k.SSH_OK ty s2 [] := by
  unfold ssh_userauth_password
  rcases hp : do_pack k ⟨k.SSH_OK, k.SSH_OK, clears, recvs⟩ s "bsssbs"
    [Field.byte SSH_MSG_USERAUTH_REQUEST, Field.str s.username,
     Field.str (lit "ssh-connection"), Field.str (lit "password"), Field.byte 0,
     Field.str pw] with ⟨rc, s1⟩
  have hrc : rc = k.SSH_OK := by
    have h := do_pack_fst k ⟨k.SSH_OK, k.SSH_OK, clears, recvs⟩ s "bsssbs"
      [Field.byte SSH_MSG_USERAUTH_REQUEST, Field.str s.username,
       Field.str (lit "ssh-connection"), Field.str (lit "password"), Field.byte 0,
       Field.str pw]
    rw [hp] at h
    exact h
  subst hrc
  exact ⟨(ssh_packet_send ⟨k.SSH_OK, k.SSH_OK, clears, recvs⟩ s1).2, by simp [ssh_packet_send]⟩

/-- One iteration on a userauth-failure or password-change-request packet. -/
theorem userauth_loop_failure (k : Codes) (hk : k.SSH_OK ≠ k.SSH_ERROR) (cnt : Int)
    (t : Nat) (p : List Nat) (rest : List Recv) (ty : Nat) (s : ssh_session) (disp : List Nat)
    (ht : t = 51 ∨ t = 60) :
    userauth_loop k cnt (⟨k.SSH_OK, t :: p⟩ :: rest) k.SSH_OK ty s disp
      = some (if cnt + 1 < 3 then
          ⟨k.SSH_AGAIN, cnt + 1, ⟨⟨[], 0⟩, ⟨[], 0⟩, s.username⟩, disp, rest⟩
        else userauth_error k { s with in_buffer := ⟨t :: p, 1⟩ } disp rest) := by
  rcases ht with rfl | rfl <;>
    simp [userauth_loop, hk, ssh_packet_receive, get_u8_cons, SSH_MSG_USERAUTH_BANNER,
      SSH_MSG_USERAUTH_SUCCESS, SSH_MSG_USERAUTH_FAILURE, SSH_MSG_USERAUTH_PASSWD_CHANGEREQ,
      ssh_buffer_reinit] <;>
    split <;> rfl

/-- One iteration on a userauth-success packet. -/
theorem userauth_loop_success (k : Codes) (hk : k.SSH_OK ≠ k.SSH_ERROR) (cnt : Int)
    (p : List Nat) (rest : List Recv) (ty : Nat) (s : ssh_session) (disp : List Nat) :
    userauth_loop k cnt (⟨k.SSH_OK, 52 :: p⟩ :: rest) k.SSH_OK ty s disp
      = some ⟨k.SSH_OK, 0, { s with in_buffer := ⟨52 :: p, 1⟩ }, disp, rest⟩ := by
  simp [userauth_loop, hk, ssh_packet_receive, get_u8_cons, SSH_MSG_USERAUTH_BANNER,
    SSH_MSG_USERAUTH_SUCCESS]

/-- One iteration on a packet whose tag the `switch` does not list. -/
theorem userauth_loop_default (k : Codes) (hk : k.SSH_OK ≠ k.SSH_ERROR) (cnt : Int)
    (t : Nat) (p : List Nat) (rest : List Recv) (ty : Nat) (s : ssh_session) (disp : List Nat)
    (h53 : t ≠ 53) (h52 : t ≠ 52) (h51 : t ≠ 51) (h60 : t ≠ 60) :
    userauth_loop k cnt (⟨k.SSH_OK, t :: p⟩ :: rest) k.SSH_OK ty s disp
      = some (userauth_error k { s with in_buffer := ⟨t :: p, 1⟩ } disp rest) := by
  simp [userauth_loop, hk, ssh_packet_receive, get_u8_cons, SSH_MSG_USERAUTH_BANNER,
    SSH_MSG_USERAUTH_SUCCESS, SSH_MSG_USERAUTH_FAILURE, SSH_MSG_USERAUTH_PASSWD_CHANGEREQ,
    h53, h52, h51, h60]

/-- One iteration in which `ssh_packet_receive` does not answer `SSH_OK`. -/
theorem userauth_loop_recv_fails (k : Codes) (hk : k.SSH_OK ≠ k.SSH_ERROR) (cnt : Int)
    (rc : Int) (p : List Nat) (rest : List Recv) (ty : Nat) (s : ssh_session) (disp : List Nat)
    (hrc : rc ≠ k.SSH_OK) :
    userauth_loop k cnt (⟨rc, p⟩ :: rest) k.SSH_OK ty s disp
      = some (userauth_error k { s with in_buffer := ⟨p, 0⟩ } disp rest) := by
  simp [userauth_loop, hk, ssh_packet_receive, hrc]

/-- One iteration on a well-formed banner: the filtered message is printed and the
loop goes on with the next answer. -/
theorem userauth_loop_banner (k : Codes) (hk : k.SSH_OK ≠ k.SSH_ERROR) (cnt : Int)
    (b : List Nat × List Nat) (hb : banner_wf b) (rest : List Recv) (ty : Nat)
    (s : ssh_session) (disp : List Nat) :
    ∃ inb : ssh_buffer,
      userauth_loop k cnt (banner_recv k b :: rest) k.SSH_OK ty s disp
        = userauth_loop k cnt rest k.SSH_OK 53 { s with in_buffer := inb }
            (disp ++ print_banner b.1) := by
  obtain ⟨m, l⟩ := b
  obtain ⟨hm, hl⟩ := hb
  have h1 := get_ssh_string_at [53] m (ssh_string l) 1 rfl hm
  have h2 := get_ssh_string_at (53 :: ssh_string m) l [] (1 + 4 + m.length)
    (by simp [ssh_string, u32be]; omega) hl
  simp only [List.append_nil, List.singleton_append, List.cons_append, List.nil_append]
    at h1 h2
  refine ⟨⟨banner_packet m l, 1 + 4 + m.length + 4 + l.length⟩, ?_⟩
  simp only [banner_recv, banner_packet, SSH_MSG_USERAUTH_BANNER]
  rw [userauth_loop]
  simp only [ne_eq, hk, not_false_eq_true, if_true, ssh_packet_receive, get_u8_cons,
    SSH_MSG_USERAUTH_BANNER, not_true_eq_false, if_false]
  rw [h1]
  dsimp only
  rw [h2]

/-- A run of well-formed banners: all the messages are printed, in order, and the
loop goes on with the answer that follows them. -/
theorem userauth_loop_banners (k : Codes) (hk : k.SSH_OK ≠ k.SSH_ERROR) (cnt : Int)
    (bs : List (List Nat × List Nat)) (hbs : ∀ b ∈ bs, banner_wf b) (rest : List Recv) :
    ∀ (ty : Nat) (s : ssh_session) (disp : List Nat), ∃ (ty1 : Nat) (inb : ssh_buffer),
      userauth_loop k cnt (bs.map (banner_recv k) ++ rest) k.SSH_OK ty s disp
        = userauth_loop k cnt rest k.SSH_OK ty1 { s with in_buffer := inb }
            (disp ++ (bs.map (fun b => print_banner b.1)).flatten) := by
  induction bs with
  | nil => intro ty s disp; exact ⟨ty, s.in_buffer, by simp⟩
  | cons b bs ih =>
    intro ty s disp
    obtain ⟨inb1, h1⟩ :=
      userauth_loop_banner k hk cnt b (hbs b (List.mem_cons_self b bs))
        (bs.map (banner_recv k) ++ rest) ty s disp
    obtain ⟨ty2, inb2, h2⟩ :=
      ih (fun x hx => hbs x (List.mem_cons_of_mem b hx)) 53 { s with in_buffer := inb1 }
        (disp ++ print_banner b.1)
    refine ⟨ty2, inb2, ?_⟩
    simp only [List.map_cons, List.cons_append, List.flatten_cons]
    rw [h1, h2]
    simp

/-- The loop of the source prints what the claim describes. -/
theorem print_banner_eq (m : List Nat) : print_banner m = escape_shown m := by
  induction m with
  | nil => rfl
  | cons ch rest ih =>
    have hl : lit "^[" = [94, 91] := by decide
    by_cases h : ch = 27 <;> simp [print_banner, escape_shown, h, hl] <;>
      simpa [escape_shown] using ih

/-- A message without the escape byte is shown as it is. -/
theorem escape_shown_id (m : List Nat) (h : 27 ∉ m) : escape_shown m = m := by
  induction m with
  | nil => rfl
  | cons ch rest ih =>
    have h1 : ch ≠ 27 := fun e => h (by simp [e])
    have h2 : 27 ∉ rest := fun e => h (List.mem_cons_of_mem ch e)
    have := ih h2
    simp only [escape_shown] at this ⊢
    simp [h1, this]

/-- A call whose first answer is a rejection: `SSH_AGAIN` while the incremented
counter is below 3, the terminal `SSH_ERROR` with the counter reset otherwise. -/
theorem userauth_password_rejected (k : Codes) (hk : k.SSH_OK ≠ k.SSH_ERROR) (cnt : Int)
    (c : Bool) (t : Nat) (p : List Nat) (q : List Recv) (s : ssh_session) (pw : List Nat)
    (ty : Nat) (ht : t = 51 ∨ t = 60) :
    ∃ r : AuthResult,
      ssh_userauth_password k ⟨k.SSH_OK, k.SSH_OK, c, ⟨k.SSH_OK, t :: p⟩ :: q⟩ cnt s pw ty
        = some r ∧
      r.unread = q ∧ r.session.out_buffer = ⟨[], 0⟩ ∧
      (cnt + 1 < 3 → r.rc = k.SSH_AGAIN ∧ r.cnt = cnt + 1 ∧ r.session.in_buffer = ⟨[], 0⟩) ∧
      (¬ cnt + 1 < 3 → r.rc = k.SSH_ERROR ∧ r.cnt = 0) := by
  obtain ⟨s2, h⟩ := userauth_password_enters_loop k c (⟨k.SSH_OK, t :: p⟩ :: q) cnt s pw ty
  rw [h, userauth_loop_failure k hk cnt t p q ty s2 [] ht]
  refine ⟨_, rfl, ?_⟩
  by_cases hc : cnt + 1 < 3 <;> simp [hc, userauth_error, ssh_buffer_reinit]

/-- A call whose first answer is userauth-success. -/
theorem userauth_password_accepted (k : Codes) (hk : k.SSH_OK ≠ k.SSH_ERROR) (cnt : Int)
    (c : Bool) (p : List Nat) (q : List Recv) (s : ssh_session) (pw : List Nat) (ty : Nat) :
    ∃ r : AuthResult,
      ssh_userauth_password k ⟨k.SSH_OK, k.SSH_OK, c, ⟨k.SSH_OK, 52 :: p⟩ :: q⟩ cnt s pw ty
        = some r ∧
      r.rc = k.SSH_OK ∧ r.cnt = 0 ∧ r.unread = q ∧ r.display = [] := by
  obtain ⟨s2, h⟩ := userauth_password_enters_loop k c (⟨k.SSH_OK, 52 :: p⟩ :: q) cnt s pw ty
  rw [h, userauth_loop_success k hk cnt p q ty s2 []]
  exact ⟨_, rfl, rfl, rfl, rfl, rfl⟩

/-! ## The retry bound and the success path -/

/-- C1 (retry bound): starting with the attempt counter at 0, three consecutive
calls in which pack, send and receive succeed and the first received packet is a
userauth-failure (51) or a password-change request (60): the first and the second
call return `SSH_AGAIN`, leave the counter at 1 and then at 2 and both buffers
reinitialised; the third call returns `SSH_ERROR` and leaves the counter at 0. -/
theorem retry_bound (k : Codes) (hk : k.distinct) (s : ssh_session)
    (pw1 pw2 pw3 : List Nat) (ty1 ty2 ty3 : Nat) (c1 c2 c3 : Bool)
    (t1 t2 t3 : Nat) (p1 p2 p3 : List Nat) (q1 q2 q3 : List Recv)
    (h1 : t1 = SSH_MSG_USERAUTH_FAILURE ∨ t1 = SSH_MSG_USERAUTH_PASSWD_CHANGEREQ)
    (h2 : t2 = SSH_MSG_USERAUTH_FAILURE ∨ t2 = SSH_MSG_USERAUTH_PASSWD_CHANGEREQ)
    (h3 : t3 = SSH_MSG_USERAUTH_FAILURE ∨ t3 = SSH_MSG_USERAUTH_PASSWD_CHANGEREQ) :
    ∃ r1 r2 r3 : AuthResult,
      ssh_userauth_password k ⟨k.SSH_OK, k.SSH_OK, c1, ⟨k.SSH_OK, t1 :: p1⟩ :: q1⟩
        0 s pw1 ty1 = some r1 ∧
      r1.rc = k.SSH_AGAIN ∧ r1.cnt = 1 ∧
      r1.session.out_buffer = ⟨[], 0⟩ ∧ r1.session.in_buffer = ⟨[], 0⟩ ∧
      ssh_userauth_password k ⟨k.SSH_OK, k.SSH_OK, c2, ⟨k.SSH_OK, t2 :: p2⟩ :: q2⟩
        r1.cnt r1.session pw2 ty2 = some r2 ∧
      r2.rc = k.SSH_AGAIN ∧ r2.cnt = 2 ∧
      r2.session.out_buffer = ⟨[], 0⟩ ∧ r2.session.in_buffer = ⟨[], 0⟩ ∧
      ssh_userauth_password k ⟨k.SSH_OK, k.SSH_OK, c3, ⟨k.SSH_OK, t3 :: p3⟩ :: q3⟩
        r2.cnt r2.session pw3 ty3 = some r3 ∧
      r3.rc = k.SSH_ERROR ∧ r3.cnt = 0 := by
  obtain ⟨r1, e1, -, o1, a1, -⟩ :=
    userauth_password_rejected k hk.1 0 c1 t1 p1 q1 s pw1 ty1 h1
  obtain ⟨g1, n1, i1⟩ := a1 (by decide)
  obtain ⟨r2, e2, -, o2, a2, -⟩ :=
    userauth_password_rejected k hk.1 1 c2 t2 p2 q2 r1.session pw2 ty2 h2
  obtain ⟨g2, n2, i2⟩ := a2 (by decide)
  obtain ⟨r3, e3, -, -, -, b3⟩ :=
    userauth_password_rejected k hk.1 2 c3 t3 p3 q3 r2.session pw3 ty3 h3
  obtain ⟨g3, n3⟩ := b3 (by decide)
  have n1' : r1.cnt = 1 := by simpa using n1
  have n2' : r2.cnt = 2 := by simpa using n2
  refine ⟨r1, r2, r3, e1, g1, n1', o1, i1, ?_, g2, n2', o2, i2, ?_, g3, n3⟩
  · rw [n1']; exact e2
  · rw [n2']; exact e3

/-- The theorem `retry_bound` at work: two password-change requests and one
failure, received by a fresh session. -/
theorem retry_bound_witness :
    libsshCodes.distinct ∧
    ∃ r1 r2 r3 : AuthResult,
      ssh_userauth_password libsshCodes
        ⟨libsshCodes.SSH_OK, libsshCodes.SSH_OK, false, ⟨libsshCodes.SSH_OK, 60 :: []⟩ :: []⟩
        0 sessionA (lit "one") 0 = some r1 ∧
      r1.rc = libsshCodes.SSH_AGAIN ∧ r1.cnt = 1 ∧
      r1.session.out_buffer = ⟨[], 0⟩ ∧ r1.session.in_buffer = ⟨[], 0⟩ ∧
      ssh_userauth_password libsshCodes
        ⟨libsshCodes.SSH_OK, libsshCodes.SSH_OK, true, ⟨libsshCodes.SSH_OK, 51 :: [0]⟩ :: []⟩
        r1.cnt r1.session (lit "two") 0 = some r2 ∧
      r2.rc = libsshCodes.SSH_AGAIN ∧ r2.cnt = 2 ∧
      r2.session.out_buffer = ⟨[], 0⟩ ∧ r2.session.in_buffer = ⟨[], 0⟩ ∧
      ssh_userauth_password libsshCodes
        ⟨libsshCodes.SSH_OK, libsshCodes.SSH_OK, false, ⟨libsshCodes.SSH_OK, 60 :: []⟩ :: []⟩
        r2.cnt r2.session (lit "three") 0 = some r3 ∧
      r3.rc = libsshCodes.SSH_ERROR ∧ r3.cnt = 0 :=
  ⟨by decide,
   retry_bound libsshCodes (by decide) sessionA (lit "one") (lit "two") (lit "three") 0 0 0
     false true false 60 51 60 [] [0] [] [] [] []
     (Or.inr rfl) (Or.inl rfl) (Or.inr rfl)⟩

/-- C2 (success after partial failure): starting with the counter at 0, two calls
that each receive userauth-failure return `SSH_AGAIN`, and a third call that
receives userauth-success (52) returns `SSH_OK` and leaves the counter at 0; and
for every counter value at entry a userauth-success response returns `SSH_OK`
with the counter set to 0. -/
theorem success_after_two_failures (k : Codes) (hk : k.distinct) (s : ssh_session)
    (pw1 pw2 pw3 : List Nat) (ty1 ty2 ty3 : Nat) (c1 c2 c3 : Bool)
    (p1 p2 p3 : List Nat) (q1 q2 q3 : List Recv) :
    (∃ r1 r2 r3 : AuthResult,
      ssh_userauth_password k
        ⟨k.SSH_OK, k.SSH_OK, c1, ⟨k.SSH_OK, SSH_MSG_USERAUTH_FAILURE :: p1⟩ :: q1⟩
        0 s pw1 ty1 = some r1 ∧
      r1.rc = k.SSH_AGAIN ∧
      ssh_userauth_password k
        ⟨k.SSH_OK, k.SSH_OK, c2, ⟨k.SSH_OK, SSH_MSG_USERAUTH_FAILURE :: p2⟩ :: q2⟩
        r1.cnt r1.session pw2 ty2 = some r2 ∧
      r2.rc = k.SSH_AGAIN ∧
      ssh_userauth_password k
        ⟨k.SSH_OK, k.SSH_OK, c3, ⟨k.SSH_OK, SSH_MSG_USERAUTH_SUCCESS :: p3⟩ :: q3⟩
        r2.cnt r2.session pw3 ty3 = some r3 ∧
      r3.rc = k.SSH_OK ∧ r3.cnt = 0) ∧
    (∀ (cnt : Int) (s1 : ssh_session),
      ∃ r : AuthResult,
        ssh_userauth_password k
          ⟨k.SSH_OK, k.SSH_OK, c3, ⟨k.SSH_OK, SSH_MSG_USERAUTH_SUCCESS :: p3⟩ :: q3⟩
          cnt s1 pw3 ty3 = some r ∧
        r.rc = k.SSH_OK ∧ r.cnt = 0) := by
  constructor
  · obtain ⟨r1, e1, -, -, a1, -⟩ :=
      userauth_password_rejected k hk.1 0 c1 51 p1 q1 s pw1 ty1 (Or.inl rfl)
    obtain ⟨g1, n1, -⟩ := a1 (by decide)
    obtain ⟨r2, e2, -, -, a2, -⟩ :=
      userauth_password_rejected k hk.1 r1.cnt c2 51 p2 q2 r1.session pw2 ty2 (Or.inl rfl)
    obtain ⟨g2, -, -⟩ := a2 (by rw [n1]; decide)
    obtain ⟨r3, e3, g3, n3, -, -⟩ :=
      userauth_password_accepted k hk.1 r2.cnt c3 p3 q3 r2.session pw3 ty3
    exact ⟨r1, r2, r3, e1, g1, e2, g2, e3, g3, n3⟩
  · intro cnt s1
    obtain ⟨r, e, g, n, -, -⟩ := userauth_password_accepted k hk.1 cnt c3 p3 q3 s1 pw3 ty3
    exact ⟨r, e, g, n⟩

/-- The theorem `success_after_two_failures` at work on a fresh session. -/
theorem success_after_two_failures_witness :
    libsshCodes.distinct ∧
    (∃ r1 r2 r3 : AuthResult,
      ssh_userauth_password libsshCodes
        ⟨libsshCodes.SSH_OK, libsshCodes.SSH_OK, false,
          ⟨libsshCodes.SSH_OK, SSH_MSG_USERAUTH_FAILURE :: []⟩ :: []⟩
        0 sessionA (lit "one") 0 = some r1 ∧
      r1.rc = libsshCodes.SSH_AGAIN ∧
      ssh_userauth_password libsshCodes
        ⟨libsshCodes.SSH_OK, libsshCodes.SSH_OK, false,
          ⟨libsshCodes.SSH_OK, SSH_MSG_USERAUTH_FAILURE :: []⟩ :: []⟩
        r1.cnt r1.session (lit "two") 0 = some r2 ∧
      r2.rc = libsshCodes.SSH_AGAIN ∧
      ssh_userauth_password libsshCodes
        ⟨libsshCodes.SSH_OK, libsshCodes.SSH_OK, false,
          ⟨libsshCodes.SSH_OK, SSH_MSG_USERAUTH_SUCCESS :: []⟩ :: []⟩
        r2.cnt r2.session (lit "three") 0 = some r3 ∧
      r3.rc = libsshCodes.SSH_OK ∧ r3.cnt = 0) ∧
    (∀ (cnt : Int) (s1 : ssh_session),
      ∃ r : AuthResult,
        ssh_userauth_password libsshCodes
          ⟨libsshCodes.SSH_OK, libsshCodes.SSH_OK, false,
            ⟨libsshCodes.SSH_OK, SSH_MSG_USERAUTH_SUCCESS :: []⟩ :: []⟩
          cnt s1 (lit "three") 0 = some r ∧
        r.rc = libsshCodes.SSH_OK ∧ r.cnt = 0) :=
  ⟨by decide,
   success_after_two_failures libsshCodes (by decide) sessionA (lit "one") (lit "two")
     (lit "three") 0 0 0 false false false [] [] [] [] [] []⟩

/-! ## Unknown tags, transport failures, banners -/

/-- C4 (unrecognized tag): for every counter value at entry, after any number of
well-formed banners, a received packet whose leading tag is none of
userauth-banner (53), userauth-success (52), userauth-failure (51) and
password-change request (60) makes the call return `SSH_ERROR`, which is neither
`SSH_OK` nor `SSH_AGAIN`, and no further packet is received. -/
theorem unrecognized_tag (k : Codes) (hk : k.distinct) (cnt : Int) (s : ssh_session)
    (pw : List Nat) (ty : Nat) (c : Bool) (bs : List (List Nat × List Nat))
    (hbs : ∀ b ∈ bs, banner_wf b) (t : Nat) (p : List Nat) (q : List Recv)
    (h53 : t ≠ SSH_MSG_USERAUTH_BANNER) (h52 : t ≠ SSH_MSG_USERAUTH_SUCCESS)
    (h51 : t ≠ SSH_MSG_USERAUTH_FAILURE) (h60 : t ≠ SSH_MSG_USERAUTH_PASSWD_CHANGEREQ) :
    ∃ r : AuthResult,
      ssh_userauth_password k
        ⟨k.SSH_OK, k.SSH_OK, c, bs.map (banner_recv k) ++ ⟨k.SSH_OK, t :: p⟩ :: q⟩
        cnt s pw ty = some r ∧
      r.rc = k.SSH_ERROR ∧ r.rc ≠ k.SSH_OK ∧ r.rc ≠ k.SSH_AGAIN ∧ r.unread = q := by
  obtain ⟨s2, h⟩ := userauth_password_enters_loop k c
    (bs.map (banner_recv k) ++ ⟨k.SSH_OK, t :: p⟩ :: q) cnt s pw ty
  obtain ⟨ty1, inb, hb⟩ :=
    userauth_loop_banners k hk.1 cnt bs hbs (⟨k.SSH_OK, t :: p⟩ :: q) ty s2 []
  rw [h, hb, userauth_loop_default k hk.1 cnt t p q ty1 _ _ h53 h52 h51 h60]
  exact ⟨_, rfl, rfl, fun e => hk.1 e.symm, fun e => hk.2.2 e.symm, rfl⟩

/-- The theorem `unrecognized_tag` at work: one banner, then a packet with the
service-accept tag 6. -/
theorem unrecognized_tag_witness :
    libsshCodes.distinct ∧ (∀ b ∈ [(lit "hi", lit "en")], banner_wf b) ∧
    ∃ r : AuthResult,
      ssh_userauth_password libsshCodes
        ⟨libsshCodes.SSH_OK, libsshCodes.SSH_OK, false,
          [(lit "hi", lit "en")].map (banner_recv libsshCodes)
            ++ ⟨libsshCodes.SSH_OK, 6 :: [1, 2]⟩ :: [⟨libsshCodes.SSH_OK, [52]⟩]⟩
        2 sessionA (lit "secret") 0 = some r ∧
      r.rc = libsshCodes.SSH_ERROR ∧ r.rc ≠ libsshCodes.SSH_OK ∧
      r.rc ≠ libsshCodes.SSH_AGAIN ∧ r.unread = [⟨libsshCodes.SSH_OK, [52]⟩] :=
  ⟨by decide, by decide,
   unrecognized_tag libsshCodes (by decide) 2 sessionA (lit "secret") 0 false
     [(lit "hi", lit "en")] (by decide) 6 [1, 2] [⟨libsshCodes.SSH_OK, [52]⟩]
     (by decide) (by decide) (by decide) (by decide)⟩

/-- C5 (transport failure): for every counter value at entry, when
`ssh_packet_send` answers anything but `SSH_OK` (nothing is received then), or
when, after any number of well-formed banners, `ssh_packet_receive` answers
anything but `SSH_OK` (nothing more is received then), the call returns
`SSH_ERROR`, leaves the counter at 0 and the outbound buffer reinitialised. -/
theorem transport_failure (k : Codes) (hk : k.distinct) (cnt : Int) (s : ssh_session)
    (pw : List Nat) (ty : Nat) (c : Bool) :
    (∀ (packRc sendRc : Int) (recvs : List Recv), sendRc ≠ k.SSH_OK →
      ∃ r : AuthResult,
        ssh_userauth_password k ⟨packRc, sendRc, c, recvs⟩ cnt s pw ty = some r ∧
        r.rc = k.SSH_ERROR ∧ r.cnt = 0 ∧ r.session.out_buffer = ⟨[], 0⟩ ∧
        r.unread = recvs) ∧
    (∀ (bs : List (List Nat × List Nat)) (rc : Int) (p : List Nat) (q : List Recv),
      (∀ b ∈ bs, banner_wf b) → rc ≠ k.SSH_OK →
      ∃ r : AuthResult,
        ssh_userauth_password k
          ⟨k.SSH_OK, k.SSH_OK, c, bs.map (banner_recv k) ++ ⟨rc, p⟩ :: q⟩ cnt s pw ty
          = some r ∧
        r.rc = k.SSH_ERROR ∧ r.cnt = 0 ∧ r.session.out_buffer = ⟨[], 0⟩ ∧
        r.unread = q) := by
  constructor
  · intro packRc sendRc recvs hs
    unfold ssh_userauth_password
    rcases hp : do_pack k ⟨packRc, sendRc, c, recvs⟩ s "bsssbs"
      [Field.byte SSH_MSG_USERAUTH_REQUEST, Field.str s.username,
       Field.str (lit "ssh-connection"), Field.str (lit "password"), Field.byte 0,
       Field.str pw] with ⟨rc, s1⟩
    by_cases h : rc = k.SSH_OK
    · simp [h, ssh_packet_send, hs, userauth_error, ssh_buffer_reinit]
    · simp [h, userauth_error, ssh_buffer_reinit]
  · intro bs rc p q hbs hrc
    obtain ⟨s2, h⟩ := userauth_password_enters_loop k c
      (bs.map (banner_recv k) ++ ⟨rc, p⟩ :: q) cnt s pw ty
    obtain ⟨ty1, inb, hb⟩ := userauth_loop_banners k hk.1 cnt bs hbs (⟨rc, p⟩ :: q) ty s2 []
    rw [h, hb, userauth_loop_recv_fails k hk.1 cnt rc p q ty1 _ _ hrc]
    exact ⟨_, rfl, rfl, rfl, rfl, rfl⟩

/-- The theorem `transport_failure` at work: a send that would retry, and a
receive that fails after one banner. -/
theorem transport_failure_witness :
    libsshCodes.distinct ∧
    (libsshCodes.SSH_AGAIN ≠ libsshCodes.SSH_OK ∧
      ∃ r : AuthResult,
        ssh_userauth_password libsshCodes
          ⟨libsshCodes.SSH_OK, libsshCodes.SSH_AGAIN, false, [⟨libsshCodes.SSH_OK, [52]⟩]⟩
          1 sessionA (lit "secret") 0 = some r ∧
        r.rc = libsshCodes.SSH_ERROR ∧ r.cnt = 0 ∧ r.session.out_buffer = ⟨[], 0⟩ ∧
        r.unread = [⟨libsshCodes.SSH_OK, [52]⟩]) ∧
    ((∀ b ∈ [(lit "hi", lit "en")], banner_wf b) ∧
      libsshCodes.SSH_ERROR ≠ libsshCodes.SSH_OK ∧
      ∃ r : AuthResult,
        ssh_userauth_password libsshCodes
          ⟨libsshCodes.SSH_OK, libsshCodes.SSH_OK, false,
            [(lit "hi", lit "en")].map (banner_recv libsshCodes)
              ++ ⟨libsshCodes.SSH_ERROR, []⟩ :: [⟨libsshCodes.SSH_OK, [52]⟩]⟩
          1 sessionA (lit "secret") 0 = some r ∧
        r.rc = libsshCodes.SSH_ERROR ∧ r.cnt = 0 ∧ r.session.out_buffer = ⟨[], 0⟩ ∧
        r.unread = [⟨libsshCodes.SSH_OK, [52]⟩]) :=
  ⟨by decide,
   ⟨by decide,
    (transport_failure libsshCodes (by decide) 1 sessionA (lit "secret") 0 false).1
      libsshCodes.SSH_OK libsshCodes.SSH_AGAIN [⟨libsshCodes.SSH_OK, [52]⟩] (by decide)⟩,
   ⟨by decide, by decide,
    (transport_failure libsshCodes (by decide) 1 sessionA (lit "secret") 0 false).2
      [(lit "hi", lit "en")] libsshCodes.SSH_ERROR [] [⟨libsshCodes.SSH_OK, [52]⟩]
      (by decide) (by decide)⟩⟩

/-- C6 (banner filtering): a banner packet carrying a well-formed message `m` and
language tag `l`, followed by a userauth-success packet: the call returns `SSH_OK`
and what it has written to the display is `m` with every byte 27 replaced by the
two bytes of `^[` and every other byte unchanged, in order, nothing of `l`; a
message without the byte 27 is displayed unchanged, and the bytes 0x41, 0x1B, 0x42
are displayed as `A^[B`. -/
theorem banner_filtering (k : Codes) (hk : k.distinct) (cnt : Int) (s : ssh_session)
    (pw : List Nat) (ty : Nat) (c : Bool) (m l : List Nat) (hb : banner_wf (m, l))
    (p : List Nat) (q : List Recv) :
    (∃ r : AuthResult,
      ssh_userauth_password k
        ⟨k.SSH_OK, k.SSH_OK, c,
          ⟨k.SSH_OK, banner_packet m l⟩ :: ⟨k.SSH_OK, SSH_MSG_USERAUTH_SUCCESS :: p⟩ :: q⟩
        cnt s pw ty = some r ∧
      r.rc = k.SSH_OK ∧ r.display = escape_shown m ∧ (27 ∉ m → r.display = m)) ∧
    escape_shown [0x41, 0x1B, 0x42] = lit "A^[B" := by
  refine ⟨?_, by decide⟩
  obtain ⟨s2, h⟩ := userauth_password_enters_loop k c
    (⟨k.SSH_OK, banner_packet m l⟩ :: ⟨k.SSH_OK, SSH_MSG_USERAUTH_SUCCESS :: p⟩ :: q)
    cnt s pw ty
  obtain ⟨inb, h1⟩ := userauth_loop_banner k hk.1 cnt (m, l) hb
    (⟨k.SSH_OK, SSH_MSG_USERAUTH_SUCCESS :: p⟩ :: q) ty s2 []
  simp only [banner_recv] at h1
  rw [h, h1]
  simp only [SSH_MSG_USERAUTH_SUCCESS]
  rw [userauth_loop_success k hk.1 cnt p q 53 _ _]
  refine ⟨_, rfl, rfl, ?_, ?_⟩
  · simp [print_banner_eq]
  · intro hm
    simp [print_banner_eq, escape_shown_id m hm]

/-- The theorem `banner_filtering` at work on the message `A`, ESC, `B`. -/
theorem banner_filtering_witness :
    libsshCodes.distinct ∧ banner_wf ([0x41, 0x1B, 0x42], lit "en") ∧
    (∃ r : AuthResult,
      ssh_userauth_password libsshCodes
        ⟨libsshCodes.SSH_OK, libsshCodes.SSH_OK, false,
          ⟨libsshCodes.SSH_OK, banner_packet [0x41, 0x1B, 0x42] (lit "en")⟩ ::
            ⟨libsshCodes.SSH_OK, SSH_MSG_USERAUTH_SUCCESS :: []⟩ :: []⟩
        0 sessionA (lit "secret") 0 = some r ∧
      r.rc = libsshCodes.SSH_OK ∧ r.display = escape_shown [0x41, 0x1B, 0x42] ∧
      (27 ∉ [0x41, 0x1B, 0x42] → r.display = [0x41, 0x1B, 0x42])) ∧
    escape_shown [0x41, 0x1B, 0x42] = lit "A^[B" :=
  ⟨by decide, by decide,
   banner_filtering libsshCodes (by decide) 0 sessionA (lit "secret") 0 false
     [0x41, 0x1B, 0x42] (lit "en") (by decide) [] []⟩

/-! ## The scope of the attempt counter -/

/-- C8, as stated, fails: after two calls on session A have each returned
`SSH_AGAIN` on a userauth-failure response, the first call on the distinct session
B that receives userauth-failure returns the terminal `SSH_ERROR`, not
`SSH_AGAIN`, although the same call returns `SSH_AGAIN` when A was never used
(counter 0). -/
theorem counter_scope_counterexample :
    sessionA ≠ sessionB ∧
    ∃ r1 r2 r3 rFresh : AuthResult,
      ssh_userauth_password libsshCodes (okCall [[51]]) 0 sessionA (lit "one") 0 = some r1 ∧
      r1.rc = libsshCodes.SSH_AGAIN ∧
      ssh_userauth_password libsshCodes (okCall [[51]]) r1.cnt r1.session (lit "two") 0
        = some r2 ∧
      r2.rc = libsshCodes.SSH_AGAIN ∧
      ssh_userauth_password libsshCodes (okCall [[51]]) r2.cnt sessionB (lit "bob1") 0
        = some r3 ∧
      r3.rc = libsshCodes.SSH_ERROR ∧ r3.rc ≠ libsshCodes.SSH_AGAIN ∧
      ssh_userauth_password libsshCodes (okCall [[51]]) 0 sessionB (lit "bob1") 0
        = some rFresh ∧
      rFresh.rc = libsshCodes.SSH_AGAIN := by
  refine ⟨by decide, _, _, _, _, rfl, rfl, rfl, rfl, rfl, rfl, by decide, rfl, rfl⟩

/-- C8, amended: the attempt counter is one counter of the process, shared by all
sessions.  Starting with the counter at 0, after two calls on a session A have each
returned `SSH_AGAIN` on a userauth-failure response, the very next call of
`ssh_userauth_password` (no other call of it in between), made on any session B,
returns `SSH_ERROR` and resets the counter to 0 if it receives a userauth-failure
response; and, for every counter value at entry, a call on B that receives a
userauth-failure response returns `SSH_AGAIN` exactly when that value, whichever
session and call left it there, is below 2. -/
theorem counter_shared_by_sessions (k : Codes) (hk : k.distinct) (A B : ssh_session)
    (pw1 pw2 pw3 : List Nat) (ty1 ty2 ty3 : Nat) (c1 c2 c3 : Bool)
    (p1 p2 p3 : List Nat) (q1 q2 q3 : List Recv) :
    (∃ r1 r2 r3 : AuthResult,
      ssh_userauth_password k
        ⟨k.SSH_OK, k.SSH_OK, c1, ⟨k.SSH_OK, SSH_MSG_USERAUTH_FAILURE :: p1⟩ :: q1⟩
        0 A pw1 ty1 = some r1 ∧
      r1.rc = k.SSH_AGAIN ∧
      ssh_userauth_password k
        ⟨k.SSH_OK, k.SSH_OK, c2, ⟨k.SSH_OK, SSH_MSG_USERAUTH_FAILURE :: p2⟩ :: q2⟩
        r1.cnt r1.session pw2 ty2 = some r2 ∧
      r2.rc = k.SSH_AGAIN ∧
      ssh_userauth_password k
        ⟨k.SSH_OK, k.SSH_OK, c3, ⟨k.SSH_OK, SSH_MSG_USERAUTH_FAILURE :: p3⟩ :: q3⟩
        r2.cnt B pw3 ty3 = some r3 ∧
      r3.rc = k.SSH_ERROR ∧ r3.cnt = 0) ∧
    (∀ cnt : Int, ∃ r : AuthResult,
      ssh_userauth_password k
        ⟨k.SSH_OK, k.SSH_OK, c3, ⟨k.SSH_OK, SSH_MSG_USERAUTH_FAILURE :: p3⟩ :: q3⟩
        cnt B pw3 ty3 = some r ∧
      (r.rc = k.SSH_AGAIN ↔ cnt < 2)) := by
  constructor
  · obtain ⟨r1, e1, -, -, a1, -⟩ :=
      userauth_password_rejected k hk.1 0 c1 51 p1 q1 A pw1 ty1 (Or.inl rfl)
    obtain ⟨g1, n1, -⟩ := a1 (by decide)
    obtain ⟨r2, e2, -, -, a2, -⟩ :=
      userauth_password_rejected k hk.1 r1.cnt c2 51 p2 q2 r1.session pw2 ty2 (Or.inl rfl)
    obtain ⟨g2, n2, -⟩ := a2 (by rw [n1]; decide)
    obtain ⟨r3, e3, -, -, -, b3⟩ :=
      userauth_password_rejected k hk.1 r2.cnt c3 51 p3 q3 B pw3 ty3 (Or.inl rfl)
    obtain ⟨g3, n3⟩ := b3 (by rw [n2, n1]; decide)
    exact ⟨r1, r2, r3, e1, g1, e2, g2, e3, g3, n3⟩
  · intro cnt
    obtain ⟨r, e, -, -, a, b⟩ :=
      userauth_password_rejected k hk.1 cnt c3 51 p3 q3 B pw3 ty3 (Or.inl rfl)
    refine ⟨r, e, ?_⟩
    by_cases hc : cnt + 1 < 3
    · exact ⟨fun _ => by omega, fun _ => (a hc).1⟩
    · constructor
      · intro h
        rw [(b hc).1] at h
        exact absurd h.symm hk.2.2
      · intro h
        omega

/-- The theorem `counter_shared_by_sessions` at work on the sessions of `alice`
and `bob`. -/
theorem counter_shared_by_sessions_witness :
    libsshCodes.distinct ∧
    (∃ r1 r2 r3 : AuthResult,
      ssh_userauth_password libsshCodes
        ⟨libsshCodes.SSH_OK, libsshCodes.SSH_OK, false,
          ⟨libsshCodes.SSH_OK, SSH_MSG_USERAUTH_FAILURE :: []⟩ :: []⟩
        0 sessionA (lit "one") 0 = some r1 ∧
      r1.rc = libsshCodes.SSH_AGAIN ∧
      ssh_userauth_password libsshCodes
        ⟨libsshCodes.SSH_OK, libsshCodes.SSH_OK, false,
          ⟨libsshCodes.SSH_OK, SSH_MSG_USERAUTH_FAILURE :: []⟩ :: []⟩
        r1.cnt r1.session (lit "two") 0 = some r2 ∧
      r2.rc = libsshCodes.SSH_AGAIN ∧
      ssh_userauth_password libsshCodes
        ⟨libsshCodes.SSH_OK, libsshCodes.SSH_OK, false,
          ⟨libsshCodes.SSH_OK, SSH_MSG_USERAUTH_FAILURE :: []⟩ :: []⟩
        r2.cnt sessionB (lit "bob1") 0 = some r3 ∧
      r3.rc = libsshCodes.SSH_ERROR ∧ r3.cnt = 0) ∧
    (∀ cnt : Int, ∃ r : AuthResult,
      ssh_userauth_password libsshCodes
        ⟨libsshCodes.SSH_OK, libsshCodes.SSH_OK, false,
          ⟨libsshCodes.SSH_OK, SSH_MSG_USERAUTH_FAILURE :: []⟩ :: []⟩
        cnt sessionB (lit "bob1") 0 = some r ∧
      (r.rc = libsshCodes.SSH_AGAIN ↔ cnt < 2)) :=
  ⟨by decide,
   counter_shared_by_sessions libsshCodes (by decide) sessionA sessionB (lit "one")
     (lit "two") (lit "bob1") 0 0 0 false false false [] [] [] [] [] []⟩

/-! ## `ssh_get_password` -/

/-- The loop on an input whose first newline comes after the bytes `w`: it stores
the bytes of `w` from index `i` on, up to index `max_len - 1`, and stops. -/
theorem get_password_loop_newline (rest : List Nat) (w : List Nat) :
    (∀ b ∈ w, b < 256) → 10 ∉ w →
    ∀ (fuel i : Nat) (writes : List (Nat × Nat)), i ≤ max_len → max_len - i < fuel →
      ∃ stdin1 : List Nat,
        ssh_get_password_loop fuel (w ++ 10 :: rest) i writes
          = some (stdin1, i + min w.length (max_len - i),
              writes ++ (w.take (max_len - i)).enumFrom i) := by
  induction w with
  | nil =>
    intro _ _ fuel i writes _ hf
    obtain ⟨f, rfl⟩ : ∃ f, fuel = f + 1 := ⟨fuel - 1, by omega⟩
    exact ⟨rest, by simp [ssh_get_password_loop, getchar]⟩
  | cons b w ih =>
    intro hw hn fuel i writes hi hf
    obtain ⟨f, rfl⟩ : ∃ f, fuel = f + 1 := ⟨fuel - 1, by omega⟩
    have hb : b < 256 := hw b (List.mem_cons_self b w)
    have hb10 : b ≠ 10 := fun e => hn (by simp [e])
    have hc : (((b : Int) % 256).toNat) = b := by omega
    have hEOF : (b : Int) ≠ EOF := by simp only [EOF]; omega
    have hb10' : (b : Int) ≠ 10 := by omega
    by_cases hlt : i < max_len
    · obtain ⟨stdin1, h⟩ := ih (fun x hx => hw x (List.mem_cons_of_mem b hx))
        (fun e => hn (List.mem_cons_of_mem b e)) f (i + 1) (writes ++ [(i, b)])
        (by omega) (by omega)
      refine ⟨stdin1, ?_⟩
      obtain ⟨n, hn1⟩ : ∃ n, max_len - i = n + 1 := ⟨max_len - i - 1, by omega⟩
      have hn2 : max_len - (i + 1) = n := by omega
      rw [hn2] at h
      rw [hn1]
      simp only [List.cons_append, ssh_get_password_loop, getchar, hc, hb10', hEOF, hlt, ne_eq,
        not_false_eq_true, and_self, if_true, List.take_succ_cons, List.enumFrom_cons,
        List.length_cons]
      rw [h]
      simp only [List.append_assoc, List.singleton_append, Option.some.injEq, Prod.mk.injEq,
        and_true, true_and]
      omega
    · have hi0 : max_len - i = 0 := by omega
      refine ⟨w ++ 10 :: rest, ?_⟩
      rw [hi0]
      simp [ssh_get_password_loop, getchar, hc, hlt]

/-- C9 (bounded capture): for every input that contains a newline, with `w` the
bytes before the first newline, the function returns, its stores into `password[]`
are exactly the first `min |w| 100` bytes of `w` at the indices 0, 1, ... in order,
followed by one zero terminator at index `min |w| 100`; the newline is never
stored, no store has an index above 100, and at most 101 bytes are stored. -/
theorem bounded_capture (w rest : List Nat) (oldEcho : Bool)
    (hw : ∀ b ∈ w, b < 256) (hn : 10 ∉ w) :
    ∃ r : PwResult,
      ssh_get_password (w ++ 10 :: rest) oldEcho = some r ∧
      r.writes = (w.take 100).enum ++ [(min w.length 100, 0)] ∧
      (∀ x ∈ r.writes, x.2 ≠ 10) ∧
      (∀ x ∈ r.writes, x.1 ≤ 100) ∧
      r.writes.length ≤ 101 := by
  obtain ⟨stdin1, h⟩ := get_password_loop_newline rest w hw hn (max_len + 1) 0 []
    (Nat.zero_le _) (by omega)
  have hmax : max_len = 100 := rfl
  simp only [Nat.sub_zero, Nat.zero_add, List.nil_append, hmax] at h
  refine ⟨⟨(w.take 100).enum ++ [(min w.length 100, 0)], stdin1, lit "password: ",
    [false, oldEcho]⟩, ?_, rfl, ?_, ?_, ?_⟩
  · simp only [ssh_get_password, hmax, h]
    rfl
  · intro x hx
    rcases List.mem_append.1 hx with hx | hx
    · intro e
      have hmem : x.2 ∈ w := List.mem_of_mem_take (List.snd_mem_of_mem_enum hx)
      exact hn (e ▸ hmem)
    · simp only [List.mem_singleton] at hx
      rw [hx]
      show (0 : Nat) ≠ 10
      decide
  · intro x hx
    rcases List.mem_append.1 hx with hx | hx
    · have := List.fst_lt_of_mem_enum hx
      simp only [List.length_take] at this
      omega
    · simp only [List.mem_singleton] at hx
      rw [hx]
      exact Nat.min_le_right _ _
  · simp only [List.length_append, List.enum_length, List.length_take, List.length_singleton]
    omega

/-- The theorem `bounded_capture` at work on the input `pw`, newline, `x`. -/
theorem bounded_capture_witness :
    (∀ b ∈ lit "pw", b < 256) ∧ 10 ∉ lit "pw" ∧
    ∃ r : PwResult,
      ssh_get_password (lit "pw" ++ 10 :: lit "x") true = some r ∧
      r.writes = ((lit "pw").take 100).enum ++ [(min (lit "pw").length 100, 0)] ∧
      (∀ x ∈ r.writes, x.2 ≠ 10) ∧
      (∀ x ∈ r.writes, x.1 ≤ 100) ∧
      r.writes.length ≤ 101 :=
  ⟨by decide, by decide,
   bounded_capture (lit "pw") (lit "x") true (by decide) (by decide)⟩

/-- C10, at the input `ab` followed by the end of input: `uint8_t c` holds 255 once
`getchar` returns `EOF`, the test `c != EOF` stays true, and the loop stores the
byte 255 at every index from 2 to 99 before the terminator goes to index 100; the
captured password is not `ab` followed by the terminator. -/
theorem get_password_misses_end_of_input :
    ∃ r : PwResult,
      ssh_get_password (lit "ab") true = some r ∧
      r.writes = [(0, 97), (1, 98)] ++ (List.range 98).map (fun j => (j + 2, 255))
        ++ [(100, 0)] ∧
      r.writes ≠ [(0, 97), (1, 98), (2, 0)] := by
  refine ⟨_, rfl, by decide, by decide⟩

/-! ## `ssh_request_auth` -/

/-- C3, at a service-accept response whose name is `ssh-userauth` followed by a zero
byte and the byte `x`: the response unpacks under `bs` to tag 6 and a 14-byte name
that is not `ssh-userauth`, and the function returns `SSH_OK`, because `strcmp`
stops at the zero byte. -/
theorem request_auth_accepts_longer_name :
    ssh_buffer_unpack ⟨[6, 0, 0, 0, 14] ++ lit "ssh-userauth" ++ [0, 120], 0⟩ "bs".toList
      = some ([Field.byte 6, Field.str (lit "ssh-userauth" ++ [0, 120])],
          ⟨[6, 0, 0, 0, 14] ++ lit "ssh-userauth" ++ [0, 120], 19⟩) ∧
    lit "ssh-userauth" ++ [0, 120] ≠ lit "ssh-userauth" ∧
    ∃ r : ReqResult,
      ssh_request_auth libsshCodes
        (okCall [[6, 0, 0, 0, 14] ++ lit "ssh-userauth" ++ [0, 120]]) sessionA = some r ∧
      r.rc = libsshCodes.SSH_OK := by
  refine ⟨by decide, by decide, _, rfl, rfl⟩

/-- C7, at a receive and at a send that answer would-retry: `ssh_request_auth`
returns the status of `ssh_packet_receive`, and the status of
`ssh_packet_send` or-ed into that of the pack, as it is: `SSH_AGAIN`, which is
neither `SSH_OK` nor `SSH_ERROR`. -/
theorem request_auth_returns_again :
    (∃ r : ReqResult,
      ssh_request_auth libsshCodes
        ⟨libsshCodes.SSH_OK, libsshCodes.SSH_OK, false, [⟨libsshCodes.SSH_AGAIN, []⟩]⟩
        sessionA = some r ∧
      r.rc = libsshCodes.SSH_AGAIN ∧ r.rc ≠ libsshCodes.SSH_OK ∧
      r.rc ≠ libsshCodes.SSH_ERROR) ∧
    (∃ r : ReqResult,
      ssh_request_auth libsshCodes
        ⟨libsshCodes.SSH_OK, libsshCodes.SSH_AGAIN, false, []⟩ sessionA = some r ∧
      r.rc = libsshCodes.SSH_AGAIN ∧ r.rc ≠ libsshCodes.SSH_OK ∧
      r.rc ≠ libsshCodes.SSH_ERROR) := by
  refine ⟨⟨_, rfl, rfl, by decide, by decide⟩, ?_⟩
  have hor : Int.lor 0 (-2) = -2 := by
    show Int.lor (Int.ofNat 0) (Int.negSucc 1) = Int.negSucc 1
    simp [Int.lor, Nat.ldiff]
  have hp := do_pack_fst libsshCodes
    ⟨libsshCodes.SSH_OK, libsshCodes.SSH_AGAIN, false, []⟩ sessionA "bs"
    [Field.byte SSH_MSG_SERVICE_REQUEST, Field.str (lit "ssh-userauth")]
  unfold ssh_request_auth
  rcases hd : do_pack libsshCodes
    ⟨libsshCodes.SSH_OK, libsshCodes.SSH_AGAIN, false, []⟩ sessionA "bs"
    [Field.byte SSH_MSG_SERVICE_REQUEST, Field.str (lit "ssh-userauth")] with ⟨rc, s1⟩
  rw [hd] at hp
  simp only at hp
  subst hp
  simp [ssh_packet_send, libsshCodes, hor]

end LabSftp
